import Mathlib

/-!
Verification of the subtitle-burning service (BURN-SUB).

This file gives a shallow embedding of the parameter-translation and
resource-management layer in `src/services/ffmpegService.ts` (two preserved
variants of the class `FFmpegService`) together with the alignment mapping of
`src/App.tsx`, and proves properties of the embedded definitions.

Modelling conventions:
- JavaScript strings are Lean `String`s; operations that the Lean kernel cannot
  reduce (`split`, `toLowerCase`) are re-implemented structurally on `List Char`.
- JavaScript numbers that the code only compares and prints are modelled as
  `Nat` (sizes, frame rates, style fields) or `Int` (the engine exit code).
- The effectful body of a job is modelled as a pure function from the input
  parameters and an environment of engine outcomes (mount success, exit code,
  output readability) to a trace of attempted virtual-file-system calls plus an
  `Except`-valued result.  Each attempted engine call appears in the trace
  whether or not it succeeds; calls the code never reaches do not appear.
-/

namespace BurnSub

/-- Two strings with the same character data are equal. -/
theorem str_ext (a b : String) (h : a.data = b.data) : a = b := by
  cases a; cases b; exact congrArg String.mk h

/-- The data of an appended string is the appended data. -/
theorem str_data_append (a b : String) : (a ++ b).data = a.data ++ b.data := rfl

/-- String append is associative. -/
theorem str_append_assoc (a b c : String) : a ++ b ++ c = a ++ (b ++ c) :=
  str_ext _ _ (by simp [str_data_append])

/-- Appending to a fixed string on the left is injective. -/
theorem str_append_left_cancel (a b c : String) (h : a ++ b = a ++ c) : b = c := by
  have hd : a.data ++ b.data = a.data ++ c.data := by
    have := congrArg String.data h
    simpa [str_data_append] using this
  exact str_ext _ _ (List.append_cancel_left hd)

/-- Removes the first occurrence of a character from a character list.  This
models the JavaScript `hex.replace(match, empty)` with a one-character string
pattern, which replaces only the first occurrence. -/
def replaceFirst (target : Char) : List Char → List Char
  | [] => []
  | c :: cs => if c = target then cs else c :: replaceFirst target cs

/-- Decides whether a character is a hexadecimal digit. -/
def isHexChar (c : Char) : Bool :=
  c.isDigit || ('a' ≤ c && c ≤ 'f') || ('A' ≤ c && c ≤ 'F')

/-- A hexadecimal digit is never the hash sign. -/
theorem isHexChar_ne_hash (c : Char) (h : isHexChar c = true) : c ≠ '#' := by
  intro he
  subst he
  exact absurd h (by decide)

/-- FFmpegService.toAssColor (both variants use the first variant's helper):
strips a leading hash sign, falls back to opaque white when the remaining
length is not six, and otherwise reorders the red-green-blue components into
blue-green-red behind the fixed opacity tag. -/
def toAssColor (hex : String) : String :=
  let cleanHex := String.mk (replaceFirst '#' hex.data)
  if cleanHex.length ≠ 6 then "&H00FFFFFF"
  else
    let r := String.mk (cleanHex.data.take 2)
    let g := String.mk ((cleanHex.data.drop 2).take 2)
    let b := String.mk ((cleanHex.data.drop 4).take 2)
    "&H00" ++ b ++ g ++ r

/-- The style record from `src/types.ts` (`SubtitleStyle`).  Numeric fields are
modelled as `Nat`; their values are only printed into the style string. -/
structure SubtitleStyle where
  fontSize : Nat
  primaryColor : String
  outlineColor : String
  outlineWidth : Nat
  marginV : Nat
  alignment : Nat
  bold : Bool
  italic : Bool
  deriving DecidableEq

/-- FFmpegService.generateStyleString (first variant): the force-style record
handed to the subtitle filter. -/
def generateStyleString (style : SubtitleStyle) : String :=
  let primary := toAssColor style.primaryColor
  let outline := toAssColor style.outlineColor
  let bold := if style.bold then "1" else "0"
  let italic := if style.italic then "1" else "0"
  "FontName=Arial,FontSize=" ++ toString style.fontSize ++
    ",PrimaryColour=" ++ primary ++
    ",OutlineColour=" ++ outline ++
    ",BackColour=&H80000000,BorderStyle=1,Outline=" ++ toString style.outlineWidth ++
    ",Shadow=0,MarginV=" ++ toString style.marginV ++
    ",Alignment=" ++ toString style.alignment ++
    ",Bold=" ++ bold ++ ",Italic=" ++ italic

/-- The three-way position choice offered by the App.tsx position buttons. -/
inductive AlignChoice where
  | top
  | middle
  | bottom
  deriving DecidableEq

/-- The numeric alignment value each App.tsx position button stores into
`subStyle.alignment`. -/
def alignmentCode : AlignChoice → Nat
  | .top => 8
  | .middle => 5
  | .bottom => 2

/-- The initial style of the App (PRESETS[0], Classic Yellow). -/
def classicYellow : SubtitleStyle :=
  ⟨24, "#FFFF00", "#000000", 2, 30, 2, true, false⟩

/-- C1: for every 6-hex-digit color string, toAssColor returns the color with
its components reordered from red-green-blue input order to blue-green-red
output order, prefixed by the fixed opacity prefix. -/
theorem toAssColor_reorders_rgb_to_bgr (c1 c2 c3 c4 c5 c6 : Char)
    (h1 : isHexChar c1 = true) (h2 : isHexChar c2 = true)
    (h3 : isHexChar c3 = true) (h4 : isHexChar c4 = true)
    (h5 : isHexChar c5 = true) (h6 : isHexChar c6 = true) :
    toAssColor (String.mk [c1, c2, c3, c4, c5, c6]) =
      "&H00" ++ String.mk [c5, c6] ++ String.mk [c3, c4] ++ String.mk [c1, c2] := by
  have e : replaceFirst '#' [c1, c2, c3, c4, c5, c6] = [c1, c2, c3, c4, c5, c6] := by
    simp [replaceFirst, isHexChar_ne_hash c1 h1, isHexChar_ne_hash c2 h2,
      isHexChar_ne_hash c3 h3, isHexChar_ne_hash c4 h4,
      isHexChar_ne_hash c5 h5, isHexChar_ne_hash c6 h6]
  unfold toAssColor
  rw [show (String.mk [c1, c2, c3, c4, c5, c6]).data = [c1, c2, c3, c4, c5, c6] from rfl, e]
  rfl

/-- Witness for C1 at the concrete color FFAA00. -/
theorem toAssColor_reorders_rgb_to_bgr_witness :
    isHexChar 'F' = true ∧ isHexChar 'A' = true ∧ isHexChar '0' = true ∧
      toAssColor (String.mk ['F', 'F', 'A', 'A', '0', '0']) =
        "&H00" ++ String.mk ['0', '0'] ++ String.mk ['A', 'A'] ++ String.mk ['F', 'F'] :=
  ⟨by decide, by decide, by decide,
    toAssColor_reorders_rgb_to_bgr 'F' 'F' 'A' 'A' '0' '0'
      (by decide) (by decide) (by decide) (by decide) (by decide) (by decide)⟩

/-- Counterexample to C2 as stated: the hash-tagged color string has length 7,
which is not 6, yet toAssColor returns the reordered color, not the opaque
white fallback, because the length test runs after the hash sign is removed. -/
theorem toAssColor_length_neq_six_cex :
    ("#FFAA00" : String).length ≠ 6 ∧ toAssColor "#FFAA00" ≠ "&H00FFFFFF" := by
  constructor
  · decide
  · have h : toAssColor "#FFAA00" = "&H0000AAFF" := by decide
    rw [h]
    decide

/-- C2 (amended): for every color string whose length after removing the first
hash sign is not 6, toAssColor returns the fixed fallback, opaque white. -/
theorem toAssColor_fallback_wrong_length (hex : String)
    (h : (replaceFirst '#' hex.data).length ≠ 6) :
    toAssColor hex = "&H00FFFFFF" := by
  unfold toAssColor
  exact if_pos h

/-- Witness for the amended C2 at a concrete three-character input. -/
theorem toAssColor_fallback_wrong_length_witness :
    (replaceFirst '#' ("abc" : String).data).length ≠ 6 ∧ toAssColor "abc" = "&H00FFFFFF" :=
  ⟨by decide, toAssColor_fallback_wrong_length "abc" (by decide)⟩

/-- C7: the position buttons store exactly 8 for top, 5 for middle and 2 for
bottom, and for every style the generated force-style string contains the
stored alignment value in its Alignment field. -/
theorem alignment_codes :
    alignmentCode AlignChoice.top = 8 ∧
      alignmentCode AlignChoice.middle = 5 ∧
      alignmentCode AlignChoice.bottom = 2 ∧
      ∀ style : SubtitleStyle,
        List.IsInfix ("Alignment=" ++ toString style.alignment).data
          (generateStyleString style).data := by
  refine ⟨rfl, rfl, rfl, ?_⟩
  intro style
  refine ⟨("FontName=Arial,FontSize=" ++ toString style.fontSize ++
      ",PrimaryColour=" ++ toAssColor style.primaryColor ++
      ",OutlineColour=" ++ toAssColor style.outlineColor ++
      ",BackColour=&H80000000,BorderStyle=1,Outline=" ++ toString style.outlineWidth ++
      ",Shadow=0,MarginV=" ++ toString style.marginV ++ ",").data,
    (",Bold=" ++ (if style.bold then "1" else "0") ++
      ",Italic=" ++ (if style.italic then "1" else "0")).data, ?_⟩
  simp only [generateStyleString, str_data_append]
  simp [List.append_assoc]

/-- Splits a character list at every dot, modelling the JavaScript split on a
one-character separator (an empty input yields one empty field). -/
def splitOnDot : List Char → List (List Char)
  | [] => [[]]
  | c :: cs =>
    if c = '.' then [] :: splitOnDot cs
    else
      match splitOnDot cs with
      | [] => [[c]]
      | r :: rs => (c :: r) :: rs

/-- Subtitle extension detection used by both job entry points of the first
variant: the last dot-separated field of the file name, lowercased, with srt
as the default when the field is empty. -/
def extOf (name : String) : String :=
  match (splitOnDot name.data).getLast? with
  | none => "srt"
  | some e =>
    let lowered := String.mk (e.map Char.toLower)
    if lowered = "" then "srt" else lowered

/-- FFmpegService.processVideo (first variant): the large-file threshold,
2 GiB. -/
def isLargeFile (videoSize : Nat) : Bool := videoSize > 2 * 1024 * 1024 * 1024

/-- FFmpegService.processVideo (first variant): the massive-file threshold,
10 GiB. -/
def isMassiveFile (videoSize : Nat) : Bool := videoSize > 10 * 1024 * 1024 * 1024

/-- A single-quote character as a string, for the force-style wrapper. -/
def squote : String := String.singleton (Char.ofNat 39)

/-- The WORKERFS mount directory used by both processVideo variants. -/
def mountDir : String := "/mnt_input"

/-- The standardized video name the first processVideo variant renames its
input to before mounting. -/
def safeInputName : String := "source_video.mp4"

/-- The mounted input path of the first processVideo variant, built from the
fixed safe name. -/
def inputPathV1 : String := mountDir ++ "/" ++ safeInputName

/-- The mounted input path of the second processVideo variant, which keeps the
original file name. -/
def inputPathV2 (videoName : String) : String := mountDir ++ "/" ++ videoName

/-- The downscale filter stage pushed for large files (scale to 720p height,
keeping aspect ratio). -/
def scaleStage : String := "scale=-2:720"

/-- A subtitle-burn filter stage with the given staged subtitle name and
force-style payload. -/
def subtitleStage (subName styleStr : String) : String :=
  "subtitles=" ++ subName ++ ":force_style=" ++ squote ++ styleStr ++ squote

/-- The hardcoded force-style payload of the second variant. -/
def fixedStyleV2 : String :=
  "FontName=Arial,Fontsize=24,PrimaryColour=&H0000FFFF,BackColour=&H80000000,BorderStyle=3,Outline=2,Shadow=0,MarginV=30,Bold=1"

/-- JavaScript Array.join with a comma separator. -/
def joinComma : List String → String
  | [] => ""
  | [f] => f
  | f :: rest => f ++ "," ++ joinComma rest

/-- The filter list assembled by the first processVideo variant: the downscale
stage for large files, then the subtitle-burn stage when a subtitle file was
staged under subName. -/
def filtersV1 (videoSize : Nat) (subName? : Option String) (style : SubtitleStyle) :
    List String :=
  (if isLargeFile videoSize then [scaleStage] else []) ++
    (match subName? with
     | some subName => [subtitleStage subName (generateStyleString style)]
     | none => [])

/-- The full argument list assembled by the first processVideo variant. -/
def argsV1 (videoSize : Nat) (subName? : Option String) (fps : Nat)
    (outputName : String) (style : SubtitleStyle) : List String :=
  let filters := filtersV1 videoSize subName? style
  ["-i", inputPathV1] ++
    (if filters.length > 0 then ["-vf", joinComma filters] else []) ++
    ["-r", toString fps, "-c:v", "libx264"] ++
    (if isLargeFile videoSize then
      ["-preset", "ultrafast", "-crf", "28", "-tune", "fastdecode"] ++
        (if isMassiveFile videoSize then ["-threads", "2"] else [])
    else ["-preset", "veryfast", "-crf", "23"]) ++
    ["-max_muxing_queue_size", "9999", "-c:a", "copy", outputName]

/-- The filter list assembled by the second processVideo variant: only the
subtitle-burn stage with the hardcoded style, never a downscale stage. -/
def filtersV2 (hasSub : Bool) : List String :=
  if hasSub then [subtitleStage "subtitles.srt" fixedStyleV2] else []

/-- The full argument list assembled by the second processVideo variant. -/
def argsV2 (videoName : String) (hasSub : Bool) (fps : Nat)
    (outputName : String) : List String :=
  let filters := filtersV2 hasSub
  ["-i", inputPathV2 videoName] ++
    (if filters.length > 0 then ["-vf", joinComma filters] else []) ++
    ["-r", toString fps, "-c:v", "libx264", "-preset", "ultrafast",
      "-max_muxing_queue_size", "9999", "-c:a", "copy", outputName]

/-- The downscale stage is never the subtitle-burn stage. -/
theorem scale_ne_subtitle (subName styleStr : String) :
    scaleStage ≠ subtitleStage subName styleStr := by
  intro h
  have hd := congrArg String.data h
  simp [scaleStage, subtitleStage, str_data_append] at hd

/-- C3: in the first processVideo variant, inputs at or under 2 GiB get no
downscale stage in the filter list, and inputs over 2 GiB with a staged
subtitle file get a filter graph in which the downscale stage precedes the
subtitle-burn stage, joined by a comma; the second variant's filter list never
contains a downscale stage at all. -/
theorem scale_stage_thresholds (videoSize : Nat) (subName : String)
    (style : SubtitleStyle) :
    (videoSize ≤ 2 * 1024 * 1024 * 1024 →
      ∀ subName? : Option String, scaleStage ∉ filtersV1 videoSize subName? style) ∧
      (videoSize > 2 * 1024 * 1024 * 1024 →
        joinComma (filtersV1 videoSize (some subName) style) =
          scaleStage ++ "," ++ subtitleStage subName (generateStyleString style)) ∧
      (∀ hasSub : Bool, scaleStage ∉ filtersV2 hasSub) := by
  refine ⟨?_, ?_, ?_⟩
  · intro h subName?
    have hl : isLargeFile videoSize = false := by
      simp [isLargeFile]
      omega
    cases subName? with
    | none => simp [filtersV1, hl]
    | some sn => simp [filtersV1, hl, scale_ne_subtitle]
  · intro h
    have hl : isLargeFile videoSize = true := by
      simpa [isLargeFile] using h
    simp [filtersV1, hl, joinComma]
  · intro hasSub
    cases hasSub <;> simp [filtersV2, scale_ne_subtitle]

/-- Witness for C3 at a 1000-byte input and an input one byte over 2 GiB. -/
theorem scale_stage_thresholds_witness :
    ((1000 : Nat) ≤ 2 * 1024 * 1024 * 1024 ∧
      scaleStage ∉ filtersV1 1000 (some "subtitles.srt") classicYellow) ∧
      ((2147483649 : Nat) > 2 * 1024 * 1024 * 1024 ∧
        joinComma (filtersV1 2147483649 (some "subtitles.srt") classicYellow) =
          scaleStage ++ "," ++ subtitleStage "subtitles.srt" (generateStyleString classicYellow)) :=
  ⟨⟨by decide,
    (scale_stage_thresholds 1000 "subtitles.srt" classicYellow).1 (by decide)
      (some "subtitles.srt")⟩,
   ⟨by decide,
    (scale_stage_thresholds 2147483649 "subtitles.srt" classicYellow).2.1 (by decide)⟩⟩

/-- C9: variant one stages the mounted video under the fixed safe name while
variant two keeps the original file name in the mounted path, so the two
variants build unequal argument lists whenever the original name differs from
the fixed safe name. -/
theorem variants_disagree_on_input_path (videoName : String)
    (h : videoName ≠ safeInputName) (videoSize fps : Nat) (outputName : String)
    (subName? : Option String) (hasSub : Bool) (style : SubtitleStyle) :
    inputPathV1 = "/mnt_input/source_video.mp4" ∧
      inputPathV2 videoName = "/mnt_input/" ++ videoName ∧
      argsV1 videoSize subName? fps outputName style ≠
        argsV2 videoName hasSub fps outputName := by
  refine ⟨rfl, rfl, ?_⟩
  intro heq
  have h1 : (argsV1 videoSize subName? fps outputName style)[1]? = some inputPathV1 := by
    simp [argsV1]
  have h2 : (argsV2 videoName hasSub fps outputName)[1]? = some (inputPathV2 videoName) := by
    simp [argsV2]
  rw [heq, h2] at h1
  have hpath : inputPathV2 videoName = inputPathV1 := by
    exact Option.some.inj h1
  have e2 : inputPathV2 videoName = "/mnt_input/" ++ videoName := rfl
  have e1 : inputPathV1 = "/mnt_input/" ++ safeInputName := rfl
  rw [e1, e2] at hpath
  exact h (str_append_left_cancel _ _ _ hpath)

/-- Witness for C9 at a concrete original file name with a space in it. -/
theorem variants_disagree_on_input_path_witness :
    ("My Movie.mp4" : String) ≠ safeInputName ∧
      (inputPathV1 = "/mnt_input/source_video.mp4" ∧
        inputPathV2 "My Movie.mp4" = "/mnt_input/" ++ "My Movie.mp4" ∧
        argsV1 0 none 30 "output.mp4" classicYellow ≠ argsV2 "My Movie.mp4" false 30 "output.mp4") :=
  ⟨by decide,
    variants_disagree_on_input_path "My Movie.mp4" (by decide) 0 30 "output.mp4" none false
      classicYellow⟩

/-- One attempted call into the engine's virtual file system or its execution
entry point. -/
inductive FSAction where
  | unmount (dir : String)
  | deleteDir (dir : String)
  | createDir (dir : String)
  | mount (dir fileName : String)
  | writeFile (name : String)
  | readFile (name : String)
  | deleteFile (name : String)
  | exec (args : List String)
  deriving DecidableEq

/-- The outcomes the external engine hands back during one processVideo job:
whether the mount directory can be created, whether the WORKERFS mount
succeeds, the numeric status of the execution entry point, and whether the
produced output can be read back. -/
structure EngineEnv where
  createDirOk : Bool
  mountOk : Bool
  execResult : Int
  readOk : Bool
  deriving DecidableEq

deriving instance DecidableEq for Except

/-- The trace of attempted engine calls of one job together with its result;
the produced object URL is abstracted to a unit success. -/
structure JobOutcome where
  trace : List FSAction
  result : Except String Unit
  deriving DecidableEq

/-- Error shown by the first variant when the mount fails on a large file. -/
def mountLargeErrV1 : String :=
  "Processing failed. System could not mount large file. Please use a browser that supports WORKERFS (Chrome/Edge/Firefox)."

/-- Error thrown by the first variant right after the buffered-copy fallback. -/
def mountSmallErrV1 : String :=
  "System Error: Could not mount file system. Please refresh and try again."

/-- Error shown by the second variant when the mount fails on a large file. -/
def mountLargeErrV2 : String :=
  "System Error: Could not mount large file system. Browser security settings or device memory may be restricting access."

/-- Error thrown by the second variant right after the buffered-copy fallback. -/
def mountSmallErrV2 : String :=
  "Could not initialize file system for processing."

/-- Error raised by both variants on a non-zero execution status. -/
def execErr (code : Int) : String :=
  "FFmpeg exited with code " ++ toString code ++ ". Check logs."

/-- Error raised by the first variant when the output cannot be read back. -/
def readErrV1 : String :=
  "Output generation failed. The result file size exceeded browser memory limits (approx 2GB). Try reducing duration or using a computer with more RAM."

/-- Error raised by the second variant when the output cannot be read back. -/
def readErrV2 : String :=
  "Output file generation failed. The result might have exceeded browser memory limits (2GB+)."

/-- FFmpegService.processVideo, first variant, as a trace-producing function.
The stages follow the source: initial best-effort unmount of a previous
session, createDir plus WORKERFS mount of the renamed file, the large-file
guard with the buffered-copy fallback, staging of the subtitle file, one exec,
the non-zero-status check with its forced mount cleanup, the output read, and
the final cleanup. -/
def processVideoV1 (videoSize : Nat) (subFileName? : Option String) (fps : Nat)
    (outputName : String) (style : SubtitleStyle) (env : EngineEnv) : JobOutcome :=
  let subName :=
    match subFileName? with
    | some subFileName => "subtitles." ++ extOf subFileName
    | none => "subtitles.srt"
  let initCleanup := [FSAction.unmount mountDir, FSAction.deleteDir mountDir]
  let stageAttempt :=
    FSAction.createDir mountDir ::
      (if env.createDirOk then [FSAction.mount mountDir safeInputName] else [])
  let usedMount := env.createDirOk && env.mountOk
  if usedMount = false then
    if isLargeFile videoSize then
      ⟨initCleanup ++ stageAttempt, Except.error mountLargeErrV1⟩
    else
      ⟨initCleanup ++ stageAttempt ++ [FSAction.writeFile "input.mp4"],
        Except.error mountSmallErrV1⟩
  else
    let subWrite :=
      match subFileName? with
      | some _ => [FSAction.writeFile subName]
      | none => []
    let args := argsV1 videoSize (subFileName?.map fun _ => subName) fps outputName style
    let preExec := initCleanup ++ stageAttempt ++ subWrite ++ [FSAction.exec args]
    if env.execResult ≠ 0 then
      ⟨preExec ++ [FSAction.unmount mountDir, FSAction.deleteDir mountDir],
        Except.error (execErr env.execResult)⟩
    else
      let afterRead := preExec ++ [FSAction.readFile outputName]
      if env.readOk = false then
        ⟨afterRead, Except.error readErrV1⟩
      else
        ⟨afterRead ++ [FSAction.unmount mountDir, FSAction.deleteDir mountDir] ++
            (match subFileName? with
             | some _ => [FSAction.deleteFile subName]
             | none => []) ++ [FSAction.deleteFile outputName],
          Except.ok ()⟩

/-- FFmpegService.processVideo, second variant, as a trace-producing function.
It mounts under the original file name, has no initial cleanup, no renaming,
and a fixed subtitles.srt staging name. -/
def processVideoV2 (videoSize : Nat) (videoName : String) (hasSub : Bool) (fps : Nat)
    (outputName : String) (env : EngineEnv) : JobOutcome :=
  let stageAttempt :=
    FSAction.createDir mountDir ::
      (if env.createDirOk then [FSAction.mount mountDir videoName] else [])
  let usedMount := env.createDirOk && env.mountOk
  if usedMount = false then
    if videoSize > 2 * 1024 * 1024 * 1024 then
      ⟨stageAttempt, Except.error mountLargeErrV2⟩
    else
      ⟨stageAttempt ++ [FSAction.writeFile "input.mp4"], Except.error mountSmallErrV2⟩
  else
    let subWrite := if hasSub then [FSAction.writeFile "subtitles.srt"] else []
    let args := argsV2 videoName hasSub fps outputName
    let preExec := stageAttempt ++ subWrite ++ [FSAction.exec args]
    if env.execResult ≠ 0 then
      ⟨preExec ++ [FSAction.unmount mountDir, FSAction.deleteDir mountDir],
        Except.error (execErr env.execResult)⟩
    else
      let afterRead := preExec ++ [FSAction.readFile outputName]
      if env.readOk = false then
        ⟨afterRead, Except.error readErrV2⟩
      else
        ⟨afterRead ++ [FSAction.unmount mountDir, FSAction.deleteDir mountDir] ++
            (if hasSub then [FSAction.deleteFile "subtitles.srt"] else []) ++
            [FSAction.deleteFile outputName],
          Except.ok ()⟩

/-- C4: over the 10 GiB massive-file threshold, a mount failure makes the job
of either variant fail without any writeFile, so the buffered-copy fallback is
never invoked. -/
theorem massive_mount_failure_no_fallback (videoSize : Nat) (videoName : String)
    (subFileName? : Option String) (hasSub : Bool) (fps : Nat) (outputName : String)
    (style : SubtitleStyle) (env : EngineEnv)
    (hsize : videoSize > 10 * 1024 * 1024 * 1024)
    (hmount : env.createDirOk = false ∨ env.mountOk = false) :
    ((processVideoV1 videoSize subFileName? fps outputName style env).result =
        Except.error mountLargeErrV1 ∧
      ∀ n, FSAction.writeFile n ∉
        (processVideoV1 videoSize subFileName? fps outputName style env).trace) ∧
      ((processVideoV2 videoSize videoName hasSub fps outputName env).result =
          Except.error mountLargeErrV2 ∧
        ∀ n, FSAction.writeFile n ∉
          (processVideoV2 videoSize videoName hasSub fps outputName env).trace) := by
  obtain ⟨cd, mo, er, ro⟩ := env
  have hl : isLargeFile videoSize = true := by
    simp only [isLargeFile]
    simp only [decide_eq_true_eq]
    omega
  have h2 : videoSize > 2 * 1024 * 1024 * 1024 := by omega
  have hu : (cd && mo) = false := by
    rcases hmount with h | h <;> simp_all
  cases cd <;> simp_all [processVideoV1, processVideoV2, hl, h2]

/-- Witness for C4 one byte over the massive threshold with a failing mount. -/
theorem massive_mount_failure_no_fallback_witness :
    ((10737418241 : Nat) > 10 * 1024 * 1024 * 1024 ∧
      (EngineEnv.mk true false 0 true).mountOk = false) ∧
      (((processVideoV1 10737418241 none 30 "out.mp4" classicYellow
            (EngineEnv.mk true false 0 true)).result = Except.error mountLargeErrV1 ∧
        ∀ n, FSAction.writeFile n ∉
          (processVideoV1 10737418241 none 30 "out.mp4" classicYellow
            (EngineEnv.mk true false 0 true)).trace) ∧
        ((processVideoV2 10737418241 "a.mp4" false 30 "out.mp4"
              (EngineEnv.mk true false 0 true)).result = Except.error mountLargeErrV2 ∧
          ∀ n, FSAction.writeFile n ∉
            (processVideoV2 10737418241 "a.mp4" false 30 "out.mp4"
              (EngineEnv.mk true false 0 true)).trace)) :=
  ⟨⟨by decide, by decide⟩,
    massive_mount_failure_no_fallback 10737418241 "a.mp4" none false 30 "out.mp4" classicYellow
      (EngineEnv.mk true false 0 true) (by decide) (Or.inr (by decide))⟩

/-- Counterexample to C5 as stated: at a small input with a failing mount, the
first variant does not proceed with the buffered copy; it writes the copy and
then throws a system error. -/
theorem mount_failure_small_still_fails_cex :
    FSAction.writeFile "input.mp4" ∈
        (processVideoV1 1000000 none 30 "out.mp4" classicYellow
          (EngineEnv.mk true false 0 true)).trace ∧
      (processVideoV1 1000000 none 30 "out.mp4" classicYellow
          (EngineEnv.mk true false 0 true)).result = Except.error mountSmallErrV1 := by
  decide

/-- C5 (amended): at or under the 2 GiB ceiling, on mount failure both
variants copy the input bytes into the engine's buffered memory (a writeFile
of input.mp4 appears in the trace) but the job then still throws a system
error instead of proceeding with the buffered copy. -/
theorem mount_failure_small_copies_then_fails (videoSize : Nat) (videoName : String)
    (subFileName? : Option String) (hasSub : Bool) (fps : Nat) (outputName : String)
    (style : SubtitleStyle) (env : EngineEnv)
    (hsize : videoSize ≤ 2 * 1024 * 1024 * 1024)
    (hmount : env.createDirOk = false ∨ env.mountOk = false) :
    (FSAction.writeFile "input.mp4" ∈
        (processVideoV1 videoSize subFileName? fps outputName style env).trace ∧
      (processVideoV1 videoSize subFileName? fps outputName style env).result =
        Except.error mountSmallErrV1) ∧
      (FSAction.writeFile "input.mp4" ∈
          (processVideoV2 videoSize videoName hasSub fps outputName env).trace ∧
        (processVideoV2 videoSize videoName hasSub fps outputName env).result =
          Except.error mountSmallErrV2) := by
  obtain ⟨cd, mo, er, ro⟩ := env
  have hl : isLargeFile videoSize = false := by
    simp only [isLargeFile]
    simp only [decide_eq_false_iff_not]
    omega
  have hu : (cd && mo) = false := by
    rcases hmount with h | h <;> simp_all
  cases cd <;> simp_all [processVideoV1, processVideoV2, hl, Nat.not_lt.mpr hsize]

/-- Witness for the amended C5 at a one-megabyte input with a failing mount. -/
theorem mount_failure_small_copies_then_fails_witness :
    ((1000000 : Nat) ≤ 2 * 1024 * 1024 * 1024 ∧
      (EngineEnv.mk true false 0 true).mountOk = false) ∧
      ((FSAction.writeFile "input.mp4" ∈
          (processVideoV1 1000000 (some "m.srt") 30 "out.mp4" classicYellow
            (EngineEnv.mk true false 0 true)).trace ∧
        (processVideoV1 1000000 (some "m.srt") 30 "out.mp4" classicYellow
            (EngineEnv.mk true false 0 true)).result = Except.error mountSmallErrV1) ∧
        (FSAction.writeFile "input.mp4" ∈
            (processVideoV2 1000000 "a.mp4" true 30 "out.mp4"
              (EngineEnv.mk true false 0 true)).trace ∧
          (processVideoV2 1000000 "a.mp4" true 30 "out.mp4"
              (EngineEnv.mk true false 0 true)).result = Except.error mountSmallErrV2)) :=
  ⟨⟨by decide, by decide⟩,
    mount_failure_small_copies_then_fails 1000000 "a.mp4" (some "m.srt") true 30 "out.mp4"
      classicYellow (EngineEnv.mk true false 0 true) (by decide) (Or.inr (by decide))⟩

/-- C10: after a successful mount, a non-zero execution status makes both
variants fail with the exit-code error and no readFile is ever attempted. -/
theorem nonzero_exit_is_failure (videoSize : Nat) (videoName : String)
    (subFileName? : Option String) (hasSub : Bool) (fps : Nat) (outputName : String)
    (style : SubtitleStyle) (env : EngineEnv)
    (hcd : env.createDirOk = true) (hmo : env.mountOk = true)
    (hr : env.execResult ≠ 0) :
    ((processVideoV1 videoSize subFileName? fps outputName style env).result =
        Except.error (execErr env.execResult) ∧
      ∀ n, FSAction.readFile n ∉
        (processVideoV1 videoSize subFileName? fps outputName style env).trace) ∧
      ((processVideoV2 videoSize videoName hasSub fps outputName env).result =
          Except.error (execErr env.execResult) ∧
        ∀ n, FSAction.readFile n ∉
          (processVideoV2 videoSize videoName hasSub fps outputName env).trace) := by
  obtain ⟨cd, mo, er, ro⟩ := env
  simp only at hcd hmo hr
  subst hcd
  subst hmo
  cases subFileName? <;> cases hasSub <;>
    simp_all [processVideoV1, processVideoV2, hr]

/-- Witness for C10 at exit code 1 with a mounted 1000-byte input. -/
theorem nonzero_exit_is_failure_witness :
    ((EngineEnv.mk true true 1 true).createDirOk = true ∧
      (EngineEnv.mk true true 1 true).execResult ≠ 0) ∧
      (((processVideoV1 1000 none 30 "out.mp4" classicYellow
            (EngineEnv.mk true true 1 true)).result = Except.error (execErr 1) ∧
        ∀ n, FSAction.readFile n ∉
          (processVideoV1 1000 none 30 "out.mp4" classicYellow
            (EngineEnv.mk true true 1 true)).trace) ∧
        ((processVideoV2 1000 "a.mp4" false 30 "out.mp4"
              (EngineEnv.mk true true 1 true)).result = Except.error (execErr 1) ∧
          ∀ n, FSAction.readFile n ∉
            (processVideoV2 1000 "a.mp4" false 30 "out.mp4"
              (EngineEnv.mk true true 1 true)).trace)) :=
  ⟨⟨by decide, by decide⟩,
    nonzero_exit_is_failure 1000 "a.mp4" none false 30 "out.mp4" classicYellow
      (EngineEnv.mk true true 1 true) (by decide) (by decide) (by decide)⟩

/-- The outcomes the engine hands back during one createPreview job: whether
the exec call completes without throwing and whether the output reads back. -/
structure PreviewEnv where
  execOk : Bool
  readOk : Bool
  deriving DecidableEq

/-- The error message createPreview reports for any failure in its body. -/
def previewErr : String :=
  "Failed to generate preview. The file format might not support partial reading."

/-- The argument list assembled by createPreview (first variant). -/
def previewArgsV1 (subName? : Option String) (fps : Nat) (style : SubtitleStyle) :
    List String :=
  let filters :=
    match subName? with
    | some subName => [subtitleStage subName (generateStyleString style)]
    | none => []
  ["-i", "preview_input.mp4", "-t", "5"] ++
    (if filters.length > 0 then ["-vf", joinComma filters] else []) ++
    ["-r", toString fps, "-c:a", "copy", "-preset", "ultrafast", "preview_output.mp4"]

/-- FFmpegService.createPreview (first variant) as a trace-producing function:
stages the sliced input and the optional subtitle file in buffered memory,
runs one exec, reads the output, and deletes the staged files; on any failure
it attempts to delete the two staged input files (but not the output) and
reports the fixed preview error. -/
def createPreviewV1 (subFileName? : Option String) (fps : Nat) (style : SubtitleStyle)
    (env : PreviewEnv) : JobOutcome :=
  let subName :=
    match subFileName? with
    | some subFileName => "preview_sub." ++ extOf subFileName
    | none => "preview_sub.srt"
  let writes :=
    FSAction.writeFile "preview_input.mp4" ::
      (match subFileName? with
       | some _ => [FSAction.writeFile subName]
       | none => [])
  let args := previewArgsV1 (subFileName?.map fun _ => subName) fps style
  let cleanupOnError :=
    FSAction.deleteFile "preview_input.mp4" ::
      (match subFileName? with
       | some _ => [FSAction.deleteFile subName]
       | none => [])
  if env.execOk = false then
    ⟨writes ++ [FSAction.exec args] ++ cleanupOnError, Except.error previewErr⟩
  else if env.readOk = false then
    ⟨writes ++ [FSAction.exec args, FSAction.readFile "preview_output.mp4"] ++ cleanupOnError,
      Except.error previewErr⟩
  else
    ⟨writes ++
        [FSAction.exec args, FSAction.readFile "preview_output.mp4",
          FSAction.deleteFile "preview_input.mp4"] ++
        (match subFileName? with
         | some _ => [FSAction.deleteFile subName]
         | none => []) ++ [FSAction.deleteFile "preview_output.mp4"],
      Except.ok ()⟩

/-- Counterexample to C6 as stated: on the execution-failure path of the first
processVideo variant the staged subtitle file is written but never receives a
delete attempt before the call throws. -/
theorem cleanup_missing_subtitle_delete_cex :
    FSAction.writeFile "subtitles.srt" ∈
        (processVideoV1 1000 (some "movie.srt") 30 "out.mp4" classicYellow
          (EngineEnv.mk true true 1 true)).trace ∧
      FSAction.deleteFile "subtitles.srt" ∉
        (processVideoV1 1000 (some "movie.srt") 30 "out.mp4" classicYellow
          (EngineEnv.mk true true 1 true)).trace ∧
      (processVideoV1 1000 (some "movie.srt") 30 "out.mp4" classicYellow
          (EngineEnv.mk true true 1 true)).result = Except.error (execErr 1) := by
  decide

/-- C6 (amended): createPreview attempts a delete of every staged file on the
success and failure paths alike, but processVideo (first variant) attempts a
release of every staged file, mount and directory only on its success path:
after a non-zero execution status only the mount and its directory receive
cleanup attempts, the staged subtitle file receiving none, and after an
output-read failure the call throws with no cleanup attempt at all. -/
theorem cleanup_attempts_by_path (videoSize fps : Nat) (outputName subFileName : String)
    (style : SubtitleStyle) (env : EngineEnv) (penv : PreviewEnv) (psub : Option String) :
    (env.createDirOk = true → env.mountOk = true → env.execResult = 0 → env.readOk = true →
      processVideoV1 videoSize (some subFileName) fps outputName style env =
        ⟨[FSAction.unmount mountDir, FSAction.deleteDir mountDir, FSAction.createDir mountDir,
            FSAction.mount mountDir safeInputName,
            FSAction.writeFile ("subtitles." ++ extOf subFileName),
            FSAction.exec (argsV1 videoSize (some ("subtitles." ++ extOf subFileName)) fps
              outputName style),
            FSAction.readFile outputName, FSAction.unmount mountDir, FSAction.deleteDir mountDir,
            FSAction.deleteFile ("subtitles." ++ extOf subFileName),
            FSAction.deleteFile outputName],
          Except.ok ()⟩) ∧
      (env.createDirOk = true → env.mountOk = true → env.execResult ≠ 0 →
        processVideoV1 videoSize (some subFileName) fps outputName style env =
          ⟨[FSAction.unmount mountDir, FSAction.deleteDir mountDir, FSAction.createDir mountDir,
              FSAction.mount mountDir safeInputName,
              FSAction.writeFile ("subtitles." ++ extOf subFileName),
              FSAction.exec (argsV1 videoSize (some ("subtitles." ++ extOf subFileName)) fps
                outputName style),
              FSAction.unmount mountDir, FSAction.deleteDir mountDir],
            Except.error (execErr env.execResult)⟩) ∧
      (env.createDirOk = true → env.mountOk = true → env.execResult = 0 → env.readOk = false →
        processVideoV1 videoSize (some subFileName) fps outputName style env =
          ⟨[FSAction.unmount mountDir, FSAction.deleteDir mountDir, FSAction.createDir mountDir,
              FSAction.mount mountDir safeInputName,
              FSAction.writeFile ("subtitles." ++ extOf subFileName),
              FSAction.exec (argsV1 videoSize (some ("subtitles." ++ extOf subFileName)) fps
                outputName style),
              FSAction.readFile outputName],
            Except.error readErrV1⟩) ∧
      (FSAction.deleteFile "preview_input.mp4" ∈
          (createPreviewV1 psub fps style penv).trace ∧
        ∀ sfn, psub = some sfn →
          FSAction.deleteFile ("preview_sub." ++ extOf sfn) ∈
            (createPreviewV1 psub fps style penv).trace) := by
  obtain ⟨cd, mo, er, ro⟩ := env
  obtain ⟨pe, pr⟩ := penv
  refine ⟨?_, ?_, ?_, ?_, ?_⟩
  · intro h1 h2 h3 h4
    simp only at h1 h2 h3 h4
    subst h1
    subst h2
    subst h3
    subst h4
    rfl
  · intro h1 h2 h3
    simp only at h1 h2 h3
    subst h1
    subst h2
    simp [processVideoV1, h3]
  · intro h1 h2 h3 h4
    simp only at h1 h2 h3 h4
    subst h1
    subst h2
    subst h3
    subst h4
    rfl
  · cases pe <;> cases pr <;> cases psub <;> simp [createPreviewV1]
  · intro sfn heq
    subst heq
    cases pe <;> cases pr <;> simp [createPreviewV1]

/-- Witness for the amended C6 at a 1000-byte input across the three
processVideo paths and a failing preview. -/
theorem cleanup_attempts_by_path_witness :
    (processVideoV1 1000 (some "m.srt") 30 "out.mp4" classicYellow
        (EngineEnv.mk true true 0 true) =
      ⟨[FSAction.unmount mountDir, FSAction.deleteDir mountDir, FSAction.createDir mountDir,
          FSAction.mount mountDir safeInputName,
          FSAction.writeFile ("subtitles." ++ extOf "m.srt"),
          FSAction.exec (argsV1 1000 (some ("subtitles." ++ extOf "m.srt")) 30 "out.mp4"
            classicYellow),
          FSAction.readFile "out.mp4", FSAction.unmount mountDir, FSAction.deleteDir mountDir,
          FSAction.deleteFile ("subtitles." ++ extOf "m.srt"), FSAction.deleteFile "out.mp4"],
        Except.ok ()⟩) ∧
      (processVideoV1 1000 (some "m.srt") 30 "out.mp4" classicYellow
          (EngineEnv.mk true true 2 true) =
        ⟨[FSAction.unmount mountDir, FSAction.deleteDir mountDir, FSAction.createDir mountDir,
            FSAction.mount mountDir safeInputName,
            FSAction.writeFile ("subtitles." ++ extOf "m.srt"),
            FSAction.exec (argsV1 1000 (some ("subtitles." ++ extOf "m.srt")) 30 "out.mp4"
              classicYellow),
            FSAction.unmount mountDir, FSAction.deleteDir mountDir],
          Except.error (execErr 2)⟩) ∧
      (processVideoV1 1000 (some "m.srt") 30 "out.mp4" classicYellow
          (EngineEnv.mk true true 0 false) =
        ⟨[FSAction.unmount mountDir, FSAction.deleteDir mountDir, FSAction.createDir mountDir,
            FSAction.mount mountDir safeInputName,
            FSAction.writeFile ("subtitles." ++ extOf "m.srt"),
            FSAction.exec (argsV1 1000 (some ("subtitles." ++ extOf "m.srt")) 30 "out.mp4"
              classicYellow),
            FSAction.readFile "out.mp4"],
          Except.error readErrV1⟩) ∧
      (FSAction.deleteFile "preview_input.mp4" ∈
          (createPreviewV1 (some "m.srt") 30 classicYellow (PreviewEnv.mk false true)).trace ∧
        FSAction.deleteFile ("preview_sub." ++ extOf "m.srt") ∈
          (createPreviewV1 (some "m.srt") 30 classicYellow (PreviewEnv.mk false true)).trace) :=
  ⟨(cleanup_attempts_by_path 1000 30 "out.mp4" "m.srt" classicYellow
      (EngineEnv.mk true true 0 true) (PreviewEnv.mk false true) (some "m.srt")).1
      rfl rfl rfl rfl,
    (cleanup_attempts_by_path 1000 30 "out.mp4" "m.srt" classicYellow
      (EngineEnv.mk true true 2 true) (PreviewEnv.mk false true) (some "m.srt")).2.1
      rfl rfl (by decide),
    (cleanup_attempts_by_path 1000 30 "out.mp4" "m.srt" classicYellow
      (EngineEnv.mk true true 0 false) (PreviewEnv.mk false true) (some "m.srt")).2.2.1
      rfl rfl rfl rfl,
    ⟨(cleanup_attempts_by_path 1000 30 "out.mp4" "m.srt" classicYellow
        (EngineEnv.mk true true 0 true) (PreviewEnv.mk false true) (some "m.srt")).2.2.2.1,
      (cleanup_attempts_by_path 1000 30 "out.mp4" "m.srt" classicYellow
        (EngineEnv.mk true true 0 true) (PreviewEnv.mk false true) (some "m.srt")).2.2.2.2
        "m.srt" rfl⟩⟩

/-- The persistent fields of the service touched by the load lifecycle: the
engine instance reference (abstracted to its presence) and the loaded flag. -/
structure ServiceState where
  hasInstance : Bool
  loaded : Bool
  deriving DecidableEq

/-- An initialization step performed against the external engine. -/
inductive LoadAction where
  | createInstance
  | loadCore
  deriving DecidableEq

/-- The state of a freshly constructed service: no instance, core not loaded. -/
def initialState : ServiceState := ⟨false, false⟩

/-- FFmpegService.load, first variant: returns at once when the loaded flag
and the instance are both present; otherwise waits for the globals, creates
the instance when absent, and loads the core payload, setting the loaded flag
only on success. -/
def loadV1 (globalsOk coreOk : Bool) (s : ServiceState) :
    ServiceState × List LoadAction × Except String Unit :=
  if s.loaded && s.hasInstance then (s, [], Except.ok ())
  else if globalsOk = false then
    (s, [],
      Except.error
        "FFmpeg library failed to load. Please check your internet connection, ad blockers, or refresh the page.")
  else
    let acts := if s.hasInstance then ([] : List LoadAction) else [LoadAction.createInstance]
    if coreOk then (⟨true, true⟩, acts ++ [LoadAction.loadCore], Except.ok ())
    else
      (⟨true, s.loaded⟩, acts ++ [LoadAction.loadCore],
        Except.error "Failed to initialize video engine. Network or CORS error.")

/-- FFmpegService.load, second variant: ensureInstance first (throwing when
the globals are absent, creating the instance when absent), then returns when
already loaded, else loads the core payload. -/
def loadV2 (globalsOk coreOk : Bool) (s : ServiceState) :
    ServiceState × List LoadAction × Except String Unit :=
  if s.hasInstance = false && globalsOk = false then
    (s, [], Except.error "FFmpeg library not loaded. Please wait a moment or refresh the page.")
  else
    let acts := if s.hasInstance then ([] : List LoadAction) else [LoadAction.createInstance]
    if s.loaded then (⟨true, s.loaded⟩, acts, Except.ok ())
    else if coreOk then (⟨true, true⟩, acts ++ [LoadAction.loadCore], Except.ok ())
    else
      (⟨true, s.loaded⟩, acts ++ [LoadAction.loadCore],
        Except.error "Failed to initialize video engine. Please refresh.")

/-- C8: from a fresh service the first successful load creates the instance
and loads the core exactly once each, and after any successful load a further
load call of either variant performs no engine action, returning success with
the state unchanged. -/
theorem load_lazy_memoized :
    (loadV1 true true initialState =
        (⟨true, true⟩, [LoadAction.createInstance, LoadAction.loadCore], Except.ok ())) ∧
      (loadV2 true true initialState =
        (⟨true, true⟩, [LoadAction.createInstance, LoadAction.loadCore], Except.ok ())) ∧
      (∀ (g c : Bool) (s : ServiceState), (loadV1 g c s).2.2 = Except.ok () →
        ∀ g2 c2 : Bool, loadV1 g2 c2 (loadV1 g c s).1 = ((loadV1 g c s).1, [], Except.ok ())) ∧
      (∀ (g c : Bool) (s : ServiceState), (loadV2 g c s).2.2 = Except.ok () →
        ∀ g2 c2 : Bool, loadV2 g2 c2 (loadV2 g c s).1 = ((loadV2 g c s).1, [], Except.ok ())) := by
  refine ⟨by decide, by decide, ?_, ?_⟩ <;>
    · intro g c s h g2 c2
      obtain ⟨hi, ld⟩ := s
      revert h
      cases g <;> cases c <;> cases hi <;> cases ld <;> cases g2 <;> cases c2 <;> decide

/-- Witness for C8: a successful first load followed by a no-op second load,
for both variants. -/
theorem load_lazy_memoized_witness :
    ((loadV1 true true initialState).2.2 = Except.ok () ∧
      loadV1 false false (loadV1 true true initialState).1 =
        ((loadV1 true true initialState).1, [], Except.ok ())) ∧
      ((loadV2 true true initialState).2.2 = Except.ok () ∧
        loadV2 false false (loadV2 true true initialState).1 =
          ((loadV2 true true initialState).1, [], Except.ok ())) :=
  ⟨⟨by decide, load_lazy_memoized.2.2.1 true true initialState (by decide) false false⟩,
    ⟨by decide, load_lazy_memoized.2.2.2 true true initialState (by decide) false false⟩⟩

end BurnSub
